import Mathlib

/-
A shallow embedding of the shared-memory frame exchange core of pjrmi
(src/cpp/src/main/cpp/pjrmi.cpp together with src/cpp/src/main/public/pjrmi.h).

Bytes are modelled as natural numbers, file contents as byte lists, and the
outcomes of the operating-system calls that a function makes (gettimeofday,
open, fstatvfs, write, lseek, mmap, malloc, munmap) as explicit environment
records passed to each function.  Every C++ function of the core becomes a
Lean function from its arguments and such an environment to an outcome record
that carries the C++ return value or thrown exception together with the
externally observable filesystem and mapping state.
-/

namespace Pjrmi

/-- Model of `enum class ArrayType : char` from pjrmi.h. -/
inductive ArrayType
  | TYPE_BOOLEAN
  | TYPE_BYTE
  | TYPE_SHORT
  | TYPE_INTEGER
  | TYPE_LONG
  | TYPE_FLOAT
  | TYPE_DOUBLE
  | UNKNOWN
  deriving DecidableEq, Repr, Fintype

/-- The `char` value of each `ArrayType` enumerator, as a byte
(z, b, s, i, j, f, d, NUL). -/
def ArrayType.toChar : ArrayType → Nat
  | .TYPE_BOOLEAN => 122
  | .TYPE_BYTE    => 98
  | .TYPE_SHORT   => 115
  | .TYPE_INTEGER => 105
  | .TYPE_LONG    => 106
  | .TYPE_FLOAT   => 102
  | .TYPE_DOUBLE  => 100
  | .UNKNOWN      => 0

/-- Model of `char_to_array_type` from pjrmi.cpp: the inverse mapping, sending any
unrecognized character to `UNKNOWN`. -/
def char_to_array_type (c : Nat) : ArrayType :=
  if c = 122 then .TYPE_BOOLEAN
  else if c = 98 then .TYPE_BYTE
  else if c = 115 then .TYPE_SHORT
  else if c = 105 then .TYPE_INTEGER
  else if c = 106 then .TYPE_LONG
  else if c = 102 then .TYPE_FLOAT
  else if c = 100 then .TYPE_DOUBLE
  else .UNKNOWN

/-- Model of `static const char HEADER_BYTES[] = "SHMARRY"` as its eight bytes: the
seven letters S H M A R R Y followed by the trailing NUL, so that
`sizeof(HEADER_BYTES) = 8`. -/
def HEADER_BYTES : List Nat := [83, 72, 77, 65, 82, 82, 89, 0]

/-- The exceptions of namespace `des::pjrmi::exception` in pjrmi.h.  The
constructor `io_error` models `exception::io` (renamed only because a Lean
name ending in the two letters of that class reads badly here); each
constructor carries the static message prefix the code throws with, without
the appended errno text. -/
inductive PjrmiError
  | illegal_argument (msg : String)
  | io_error (msg : String)
  | out_of_memory (msg : String)
  deriving DecidableEq, Repr

/-- The three kinds of the error taxonomy, used to state which exception
class a result carries. -/
inductive ErrKind
  | invalid
  | ioFail
  | noSpace
  deriving DecidableEq, Repr

/-- The kind of an error. -/
def PjrmiError.kind : PjrmiError → ErrKind
  | .illegal_argument _ => .invalid
  | .io_error _ => .ioFail
  | .out_of_memory _ => .noSpace

/-- The kind of error carried by a result, `none` for a success. -/
def errKindOf {α : Type} : Except PjrmiError α → Option ErrKind
  | .error e => some e.kind
  | .ok _ => none

/-- The byte at index `i` of a file or mapping whose meaningful bytes are the
list `c`; indices past the end read as zero (a fresh mapping page). -/
def byteAt (c : List Nat) (i : Nat) : Nat := c.getD i 0

/-- C `strncmp` on byte lists, comparing from index `i` for at most `n`
bytes: stops at the first differing byte (returning its signed difference)
or at a NUL common to both, and returns 0 when `n` bytes are exhausted. -/
def strncmpFrom (xs ys : List Nat) (i : Nat) : Nat → Int
  | 0 => 0
  | n + 1 =>
    if byteAt xs i ≠ byteAt ys i then (byteAt xs i : Int) - (byteAt ys i : Int)
    else if byteAt xs i = 0 then 0
    else strncmpFrom xs ys (i + 1) n

/-- Environment for `create_filename`: the outcome and reading of
`gettimeofday`, the thread id from `gettid`, and the value of `rand()`. -/
structure ClockEnv where
  gettimeofday_ok : Bool
  tv_sec : Int
  tv_usec : Int
  tid : Int
  rand_value : Nat
  deriving Repr

/-- Model of `create_filename()` from pjrmi.cpp: on a clock failure throws
`illegal_argument`; otherwise returns
`"/dev/shm/" ++ microseconds ++ "." ++ tid ++ "." ++ rand`. -/
def create_filename (env : ClockEnv) : Except PjrmiError String :=
  if env.gettimeofday_ok = false then
    .error (.illegal_argument "create_filename(): Error in ::gettimeofday()")
  else
    let time : Int := env.tv_sec * 1000000 + env.tv_usec
    .ok ("/dev/shm/" ++ toString time ++ "." ++ toString env.tid
          ++ "." ++ toString env.rand_value)

/-- Observable filesystem events performed by `open_file_for_write`, in
order: creating the backing file, checking the free space (recording the
free byte count against the needed byte count), writing payload bytes, and
deleting the file. -/
inductive FsEvent
  | file_created
  | space_checked (freeBytes : Nat) (needed : Nat)
  | payload_written
  | file_deleted
  deriving DecidableEq, Repr

/-- Environment for `open_file_for_write`: whether `open` and `fstatvfs`
succeed, and the block size and available block count `fstatvfs` reports. -/
structure OpenEnv where
  open_ok : Bool
  fstatvfs_ok : Bool
  f_bsize : Nat
  f_bavail : Nat
  deriving Repr

/-- The outcome of `open_file_for_write`: the return or thrown exception
(`ok` standing for the open read-write descriptor), whether the file exists
at the path when the call returns, and the ordered filesystem events. -/
structure OpenResult where
  result : Except PjrmiError Unit
  fileExists : Bool
  events : List FsEvent
  deriving Repr

/-- Model of `open_file_for_write(file, bytes_to_write)` from pjrmi.cpp: rejects an
empty filename with `illegal_argument`; creates/truncates the file; checks
with `fstatvfs` that `f_bsize * f_bavail` free bytes are at least
`bytes_to_write`, deleting the file and throwing `out_of_memory` when not;
deletes the file and throws on an `fstatvfs` failure.  The model assumes no
file pre-exists at the path (the generated names are fresh). -/
def open_file_for_write (file : String) (bytes_to_write : Nat)
    (env : OpenEnv) : OpenResult :=
  if file = "" then
    ⟨.error (.illegal_argument "open_file_for_write(): Empty filename received"),
      false, []⟩
  else if env.open_ok = false then
    ⟨.error (.io_error "open_file_for_write(): Could not open file for writing"),
      false, []⟩
  else if env.fstatvfs_ok = false then
    ⟨.error (.io_error "open_file_for_write(): Could not check file with fstatvfs()"),
      false, [.file_created, .file_deleted]⟩
  else if env.f_bsize * env.f_bavail < bytes_to_write then
    ⟨.error (.out_of_memory "open_file_for_write(): Insufficient available space in file"),
      false,
      [.file_created, .space_checked (env.f_bsize * env.f_bavail) bytes_to_write,
        .file_deleted]⟩
  else
    ⟨.ok (), true,
      [.file_created, .space_checked (env.f_bsize * env.f_bavail) bytes_to_write]⟩

/-- The result of one `write(fd, buf, count)` system call in the oracle:
`err` is a -1 return, `ok k` wrote `k` bytes (clamped to the requested
count by the model). -/
inductive WriteResp
  | err
  | ok (k : Nat)
  deriving DecidableEq, Repr

/-- One `write` call appending to a regular file, consuming the next oracle
entry; an exhausted oracle means the call writes its buffer fully.  Returns
the bytes actually appended (`none` for a -1 return) and the remaining
oracle. -/
def sysWrite (buf : List Nat) (resps : List WriteResp) :
    Option (List Nat) × List WriteResp :=
  match resps with
  | [] => (some buf, [])
  | .err :: rest => (none, rest)
  | .ok k :: rest => (some (buf.take k), rest)

/-- The payload loop of the buffered `write_bytes_to_shm`: while fewer than
`data.length` bytes are written, call `write` on the remaining bytes; a
negative return breaks out (the final size check catches it), a short write
advances `position` by the written count.  An exhausted oracle completes the
write. -/
def writeLoop (data : List Nat) : List WriteResp → Nat → List Nat → List Nat
  | resps, position, content =>
    if position < data.length then
      match resps with
      | [] => content ++ data.drop position
      | .err :: _ => content
      | .ok k :: rest =>
        let w := min k (data.length - position)
        writeLoop data rest (position + w) (content ++ (data.drop position).take w)
    else content
  termination_by resps _ _ => resps.length

/-- Environment for the buffered `write_bytes_to_shm`: the clock for
`create_filename`, the opener environment, and the oracle for the `write`
calls (header, type tag, then payload loop, in order). -/
structure WriteEnv where
  clock : ClockEnv
  openEnv : OpenEnv
  resps : List WriteResp
  deriving Repr

/-- The outcome of a writer: the returned filename or thrown exception,
whether the backing file exists when the call returns, and its byte
contents (`[]` whenever it does not exist). -/
structure WriteResult where
  result : Except PjrmiError String
  fileExists : Bool
  content : List Nat
  deriving Repr

/-- The buffered `write_bytes_to_shm(data, array_bytes, type)` from
pjrmi.cpp: generates a filename, opens it via `open_file_for_write` for
`array_bytes + sizeof(HEADER_BYTES) + sizeof(ArrayType)` bytes, writes the
header bytes and type tag (return values unchecked), runs the payload write
loop, then `fstat`s the file and — if its size differs from the expected
total — deletes it and throws; otherwise returns the filename.  `data` is
the `array_bytes` source bytes. -/
def write_bytes_to_shm (data : List Nat) (type : ArrayType)
    (env : WriteEnv) : WriteResult :=
  match create_filename env.clock with
  | .error e => ⟨.error e, false, []⟩
  | .ok generated_filename =>
    let bytes_to_write := data.length + HEADER_BYTES.length + 1
    let opened := open_file_for_write generated_filename bytes_to_write env.openEnv
    match opened.result with
    | .error e => ⟨.error e, opened.fileExists, []⟩
    | .ok _ =>
      let s1 := sysWrite HEADER_BYTES env.resps
      let c1 := (s1.1).getD []
      let s2 := sysWrite [type.toChar] s1.2
      let c2 := c1 ++ (s2.1).getD []
      let content := writeLoop data s2.2 0 c2
      if content.length ≠ bytes_to_write then
        ⟨.error (.io_error "write_bytes_to_shm(): Allocated file size incorrect"),
          false, []⟩
      else
        ⟨.ok generated_filename, true, content⟩

/-- Environment for the mapped write-through `write_bytes_to_shm`: the clock
and opener environments, the outcomes of `lseek`, the one-byte stretch
`write`, `mmap` and `munmap`, and the address the mapping is placed at. -/
structure MapWriteEnv where
  clock : ClockEnv
  openEnv : OpenEnv
  lseek_ok : Bool
  write_ok : Bool
  mmap_ok : Bool
  munmap_ok : Bool
  mmap_base : Nat
  deriving Repr

/-- The mapped write-through `write_bytes_to_shm(lambda, array_bytes, type)`
from pjrmi.cpp: generates a filename, opens it for
`bytes_to_write = array_bytes + sizeof(HEADER_BYTES) + sizeof(ArrayType)`
bytes, seeks to offset `bytes_to_write` and writes one NUL byte there (so
the file holds `bytes_to_write + 1` bytes: the hole reads as zeros), checks
with `fstat` that the size equals `bytes_to_write + 1`, maps
`bytes_to_write` bytes shared/read-write, copies the header bytes and type
tag into the mapping, invokes the callback on the pointer just past the
header, and unmaps.  Every failure deletes the file and throws.  The
callback is modelled by `fill`, giving the byte the payload region holds at
each offset `0 ≤ i < array_bytes` after the callback returns (untouched
offsets read zero, folded into `fill`). -/
def write_bytes_to_shm_lambda (fill : Nat → Nat) (array_bytes : Nat)
    (type : ArrayType) (env : MapWriteEnv) : WriteResult :=
  match create_filename env.clock with
  | .error e => ⟨.error e, false, []⟩
  | .ok generated_filename =>
    let bytes_to_write := array_bytes + HEADER_BYTES.length + 1
    let opened := open_file_for_write generated_filename bytes_to_write env.openEnv
    match opened.result with
    | .error e => ⟨.error e, opened.fileExists, []⟩
    | .ok _ =>
      if env.lseek_ok = false then
        ⟨.error (.io_error "write_bytes_to_shm(): Could not stretch file with lseek()"),
          false, []⟩
      else if env.write_ok = false then
        ⟨.error (.io_error "write_bytes_to_shm(): Could not write empty char"),
          false, []⟩
      else
        let stretched : List Nat := List.replicate (bytes_to_write + 1) 0
        if stretched.length ≠ bytes_to_write + 1 then
          ⟨.error (.io_error "write_bytes_to_shm(): Allocated file size incorrect"),
            false, []⟩
        else if env.mmap_ok = false then
          ⟨.error (.io_error "write_bytes_to_shm(): Error in mmaping the file"),
            false, []⟩
        else
          let content := HEADER_BYTES ++ [type.toChar]
                          ++ (List.range array_bytes).map fill ++ [0]
          if env.munmap_ok = false then
            ⟨.error (.io_error "write_bytes_to_shm(): Error in munmaping the file"),
              false, []⟩
          else
            ⟨.ok generated_filename, true, content⟩

/-- Environment for the reader functions: the outcome and placement of
`mmap`, and the outcomes of `malloc` and `munmap` used by the copy-out
read. -/
structure ReadEnv where
  mmap_ok : Bool
  mmap_base : Nat
  malloc_ok : Bool
  munmap_ok : Bool
  deriving Repr

/-- The outcome of `mmap_bytes_from_shm`: the returned payload pointer (an
address) or thrown exception, whether the backing file still exists, the
base address and length of the mapping if one was created, and whether that
mapping was unmapped again before returning. -/
structure MmapResult where
  result : Except PjrmiError Nat
  fileExists : Bool
  mappedRegion : Option (Nat × Nat)
  unmapped : Bool
  deriving Repr

/-- Model of `mmap_bytes_from_shm(file, array_bytes, type)` from pjrmi.cpp: rejects a
NULL or empty filename; opens the file (failing when it does not exist);
closes and throws — without deleting the file — when the file size is below
`sizeof(HEADER_BYTES) + 1`; maps
`bytes_to_read = array_bytes + sizeof(HEADER_BYTES) + sizeof(type)` bytes
(deleting the file on a map failure); compares the first
`sizeof(HEADER_BYTES)` bytes against `HEADER_BYTES` with `strncmp` and the
byte after them against the expected type tag, deleting the file (but not
unmapping) and throwing on either mismatch; on success returns the address
just past the header.  `fileContent` is the byte contents of the file at
the path, `none` when no file exists there. -/
def mmap_bytes_from_shm (file : Option String) (array_bytes : Nat)
    (type : ArrayType) (fileContent : Option (List Nat))
    (env : ReadEnv) : MmapResult :=
  match file with
  | none =>
    ⟨.error (.io_error "mmap_bytes_from_shm(): Empty filename received"),
      fileContent.isSome, none, false⟩
  | some f =>
  if f = "" then
    ⟨.error (.io_error "mmap_bytes_from_shm(): Empty filename received"),
      fileContent.isSome, none, false⟩
  else
    match fileContent with
    | none =>
      ⟨.error (.io_error "mmap_bytes_from_shm(): Could not open file for reading"),
        false, none, false⟩
    | some c =>
      let bytes_to_read := array_bytes + HEADER_BYTES.length + 1
      if c.length < HEADER_BYTES.length + 1 then
        ⟨.error (.io_error "mmap_bytes_from_shm(): File size is insufficient for reading"),
          true, none, false⟩
      else if env.mmap_ok = false then
        ⟨.error (.io_error "mmap_bytes_from_shm(): Error in mmaping the file"),
          false, none, false⟩
      else if strncmpFrom c HEADER_BYTES 0 HEADER_BYTES.length ≠ 0 then
        ⟨.error (.io_error "mmap_bytes_from_shm(): The magic bytes in this file do not match the expected magic bytes"),
          false, some (env.mmap_base, bytes_to_read), false⟩
      else if byteAt c HEADER_BYTES.length ≠ type.toChar then
        ⟨.error (.io_error "mmap_bytes_from_shm(): The read type is not the expected type"),
          false, some (env.mmap_base, bytes_to_read), false⟩
      else
        ⟨.ok (env.mmap_base + HEADER_BYTES.length + 1), true,
          some (env.mmap_base, bytes_to_read), false⟩

/-- The outcome of `munmap_bytes_from_shm`: the return or thrown exception,
whether the backing file still exists, the address region `munmap` was
called on, and whether that call succeeded. -/
structure MunmapResult where
  result : Except PjrmiError Unit
  fileExists : Bool
  region : Nat × Nat
  unmapped : Bool
  deriving Repr

/-- Model of `munmap_bytes_from_shm(file, array_bytes, type, addr)` from pjrmi.cpp:
recomputes the mapping base as `addr - (sizeof(HEADER_BYTES) + sizeof(type))`
and unmaps `array_bytes + sizeof(HEADER_BYTES) + sizeof(type)` bytes from
it; deletes the file whether or not `munmap` succeeds, throwing after the
deletion when it fails. -/
def munmap_bytes_from_shm (file : String) (array_bytes : Nat)
    (type : ArrayType) (addr : Nat) (munmap_ok : Bool) : MunmapResult :=
  let file_addr := addr - (HEADER_BYTES.length + 1)
  let file_bytes := array_bytes + HEADER_BYTES.length + 1
  if munmap_ok = false then
    ⟨.error (.io_error "munmap_bytes_from_shm(): Error in munmaping the file"),
      false, (file_addr, file_bytes), false⟩
  else
    ⟨.ok (), false, (file_addr, file_bytes), true⟩

/-- The outcome of `read_bytes_from_shm`: the returned copied-out bytes or
thrown exception, whether the backing file still exists, the mapping that
was created (if any), and whether it was unmapped before returning. -/
structure ReadResult where
  result : Except PjrmiError (List Nat)
  fileExists : Bool
  mappedRegion : Option (Nat × Nat)
  unmapped : Bool
  deriving Repr

/-- Model of `read_bytes_from_shm(file, array_bytes, type)` from pjrmi.cpp: calls
`mmap_bytes_from_shm`; on success allocates `array_bytes` heap bytes —
deleting the file (but not unmapping) and throwing when `malloc` fails —
copies the payload out of the mapping, and calls `munmap_bytes_from_shm`,
returning the copied bytes. -/
def read_bytes_from_shm (file : Option String) (array_bytes : Nat)
    (type : ArrayType) (fileContent : Option (List Nat))
    (env : ReadEnv) : ReadResult :=
  let m := mmap_bytes_from_shm file array_bytes type fileContent env
  match m.result with
  | .error e => ⟨.error e, m.fileExists, m.mappedRegion, m.unmapped⟩
  | .ok addr =>
    if env.malloc_ok = false then
      ⟨.error (.io_error "read_bytes_from_shm(): malloc() failed"),
        false, m.mappedRegion, false⟩
    else
      let c := fileContent.getD []
      let data := (List.range array_bytes).map
                    (fun i => byteAt c (HEADER_BYTES.length + 1 + i))
      let mu := munmap_bytes_from_shm (file.getD "") array_bytes type addr
                  env.munmap_ok
      match mu.result with
      | .error e => ⟨.error e, mu.fileExists, m.mappedRegion, mu.unmapped⟩
      | .ok _ => ⟨.ok data, mu.fileExists, m.mappedRegion, mu.unmapped⟩

/-- The on-disk frame a writer produces for tag byte `tc` and payload
`data`: magic, tag, payload. -/
def frameBytes (tc : Nat) (data : List Nat) : List Nat :=
  HEADER_BYTES ++ [tc] ++ data

/-- A clock environment in which `gettimeofday` reads zero on a zero thread
id with a zero random value, so `create_filename` returns
"/dev/shm/0.0.0". -/
def normalClock : ClockEnv := ⟨true, 0, 0, 0, 0⟩

/-- An opener environment reporting `n` free bytes with every call
succeeding. -/
def normalOpen (n : Nat) : OpenEnv := ⟨true, true, n, 1⟩

/-- A buffered-writer environment for an `n`-byte payload: fresh clock,
enough free space, and every `write` call completing fully. -/
def normalWriteEnv (n : Nat) : WriteEnv :=
  ⟨normalClock, normalOpen (n + HEADER_BYTES.length + 1), []⟩

/-- A mapped-writer environment for an `n`-byte payload with every system
call succeeding, the mapping placed at 4096. -/
def normalMapEnv (n : Nat) : MapWriteEnv :=
  ⟨normalClock, normalOpen (n + HEADER_BYTES.length + 1), true, true, true, true, 4096⟩

/-- A reader environment with every system call succeeding, the mapping
placed at 4096. -/
def normalReadEnv : ReadEnv := ⟨true, 4096, true, true⟩

/-! Helper lemmas about the embedded definitions. -/

/-- Distinct `ArrayType` enumerators have distinct char values. -/
lemma toChar_injective : ∀ t u : ArrayType, t ≠ u → t.toChar ≠ u.toChar := by decide

/-- The length of a frame is the header size plus the payload size. -/
lemma frameBytes_length (tc : Nat) (data : List Nat) :
    (frameBytes tc data).length = HEADER_BYTES.length + 1 + data.length := by
  simp [frameBytes, HEADER_BYTES]
  omega

/-- The magic comparison succeeds on any byte list starting with the header
bytes. -/
lemma strncmp_frame (rest : List Nat) :
    strncmpFrom (HEADER_BYTES ++ rest) HEADER_BYTES 0 HEADER_BYTES.length = 0 := rfl

/-- The tag byte of a frame. -/
lemma byteAt_frame_tag (tc : Nat) (data : List Nat) :
    byteAt (frameBytes tc data) HEADER_BYTES.length = tc := rfl

/-- The payload bytes of a frame. -/
lemma byteAt_frame_payload (tc : Nat) (data : List Nat) (i : Nat) :
    byteAt (frameBytes tc data) (HEADER_BYTES.length + 1 + i) = data.getD i 0 := by
  unfold byteAt frameBytes
  rw [List.getD_append_right]
  · congr 1
    simp [HEADER_BYTES]
  · simp [HEADER_BYTES]

/-- Reading a list back out of itself index by index. -/
lemma range_map_getD (l : List Nat) :
    List.map (fun i => l[i]?.getD 0) (List.range l.length) = l := by
  apply List.ext_getElem
  · simp
  · intro i h1 h2
    simp [List.getElem?_eq_getElem h2]

/-- One step of a successful `strncmp` at a position where the reference
byte is not NUL: the bytes agree there and the comparison of the rest also
succeeds. -/
lemma strncmp_step (xs ys : List Nat) (i n : Nat)
    (h : strncmpFrom xs ys i (n + 1) = 0) (hz : byteAt ys i ≠ 0) :
    byteAt xs i = byteAt ys i ∧ strncmpFrom xs ys (i + 1) n = 0 := by
  unfold strncmpFrom at h
  split_ifs at h with h1 h2
  · exact absurd (by omega) h1
  · have hab : byteAt xs i = byteAt ys i := not_ne_iff.mp h1
    exact absurd (hab.symm.trans h2) hz
  · exact ⟨not_ne_iff.mp h1, h⟩

/-- A successful magic comparison forces the first eight bytes of the file
to equal the header bytes. -/
lemma strncmp_zero_extract (c : List Nat)
    (h : strncmpFrom c HEADER_BYTES 0 HEADER_BYTES.length = 0) :
    ∀ i, i < HEADER_BYTES.length → byteAt c i = byteAt HEADER_BYTES i := by
  have h0 : strncmpFrom c HEADER_BYTES 0 (7 + 1) = 0 := h
  have s0 := strncmp_step c HEADER_BYTES 0 7 h0 (by decide)
  have s1 := strncmp_step c HEADER_BYTES 1 6 s0.2 (by decide)
  have s2 := strncmp_step c HEADER_BYTES 2 5 s1.2 (by decide)
  have s3 := strncmp_step c HEADER_BYTES 3 4 s2.2 (by decide)
  have s4 := strncmp_step c HEADER_BYTES 4 3 s3.2 (by decide)
  have s5 := strncmp_step c HEADER_BYTES 5 2 s4.2 (by decide)
  have s6 := strncmp_step c HEADER_BYTES 6 1 s5.2 (by decide)
  have s7 : byteAt c 7 = 0 := by
    have hh := s6.2
    unfold strncmpFrom at hh
    have hb : byteAt HEADER_BYTES 7 = 0 := by decide
    rw [hb] at hh
    split_ifs at hh with h1 h2
    · omega
    · exact h2
    · exact absurd (not_ne_iff.mp h1) h2
  intro i hi
  have hi8 : i < 8 := hi
  interval_cases i
  · exact s0.1
  · exact s1.1
  · exact s2.1
  · exact s3.1
  · exact s4.1
  · exact s5.1
  · exact s6.1
  · exact s7

lemma create_filename_normal : create_filename normalClock = Except.ok "/dev/shm/0.0.0" := rfl

/-- The payload loop with an exhausted oracle writes all the data. -/
lemma writeLoop_nil (data c : List Nat) : writeLoop data [] 0 c = c ++ data := by
  unfold writeLoop
  by_cases h : 0 < data.length
  · simp [h]
  · have hz : data.length = 0 := by omega
    have : data = [] := List.length_eq_zero.mp hz
    simp [this]

/-- Lemma: `open_file_for_write` succeeds on a nonempty filename when the
filesystem reports exactly the needed bytes free. -/
lemma open_file_normal (f : String) (hf : ¬(f = "")) (n : Nat) :
    open_file_for_write f n (normalOpen n)
      = ⟨Except.ok (), true, [FsEvent.file_created, FsEvent.space_checked n n]⟩ := by
  unfold open_file_for_write normalOpen
  rw [if_neg hf]
  simp

/-- Under the all-success environment with full writes, the buffered writer
publishes exactly the frame and returns the generated filename. -/
lemma write_normal (data : List Nat) (t : ArrayType) :
    write_bytes_to_shm data t (normalWriteEnv data.length)
      = ⟨Except.ok "/dev/shm/0.0.0", true, frameBytes t.toChar data⟩ := by
  have hop := open_file_normal "/dev/shm/0.0.0" (by decide)
                (data.length + HEADER_BYTES.length + 1)
  simp only [write_bytes_to_shm, normalWriteEnv, create_filename_normal, hop,
    sysWrite, Option.getD, writeLoop_nil, frameBytes]
  rw [if_neg]
  simp [HEADER_BYTES]

/-- The magic comparison succeeds on every frame. -/
lemma strncmp_frameBytes (tc : Nat) (data : List Nat) :
    strncmpFrom (frameBytes tc data) HEADER_BYTES 0 HEADER_BYTES.length = 0 := rfl

/-- Under the all-success environment, the mapped write-through writer
publishes the frame, the callback-filled payload, and one trailing zero
byte, returning the generated filename. -/
lemma write_lambda_normal (fill : Nat → Nat) (N : Nat) (t : ArrayType) :
    write_bytes_to_shm_lambda fill N t (normalMapEnv N)
      = ⟨Except.ok "/dev/shm/0.0.0", true,
          HEADER_BYTES ++ [t.toChar] ++ (List.range N).map fill ++ [0]⟩ := by
  have hop := open_file_normal "/dev/shm/0.0.0" (by decide) (N + HEADER_BYTES.length + 1)
  simp only [write_bytes_to_shm_lambda, normalMapEnv, create_filename_normal, hop]
  simp

/-- Open-and-map succeeds on a frame whose tag matches the expected type,
returning the address just past the header, keeping the file, and leaving
the mapping of the full expected frame length in place. -/
lemma mmap_frame_ok (f : String) (hf : ¬(f = "")) (N : Nat) (t : ArrayType)
    (data : List Nat) (env : ReadEnv) (hm : env.mmap_ok = true) :
    mmap_bytes_from_shm (some f) N t (some (frameBytes t.toChar data)) env
      = ⟨Except.ok (env.mmap_base + HEADER_BYTES.length + 1), true,
          some (env.mmap_base, N + HEADER_BYTES.length + 1), false⟩ := by
  simp only [mmap_bytes_from_shm, hm]
  rw [if_neg hf]
  rw [if_neg (by rw [frameBytes_length]; omega)]
  rw [if_neg (by simp)]
  rw [if_neg (by simp [strncmp_frameBytes])]
  rw [if_neg (by simp [byteAt_frame_tag])]

/-- The copy-out read of a published frame returns exactly the payload,
unmaps, and deletes the backing file. -/
lemma read_frame_normal (f : String) (hf : ¬(f = "")) (t : ArrayType)
    (data : List Nat) :
    read_bytes_from_shm (some f) data.length t (some (frameBytes t.toChar data))
        normalReadEnv
      = ⟨Except.ok data, false, some (4096, data.length + HEADER_BYTES.length + 1),
          true⟩ := by
  unfold read_bytes_from_shm
  rw [mmap_frame_ok f hf data.length t data normalReadEnv rfl]
  simp only [normalReadEnv, munmap_bytes_from_shm, byteAt_frame_payload, Option.getD]
  simp [range_map_getD, byteAt_frame_payload]

/-- Lemma: `open_file_for_write` either fails leaving no file, or returns a
descriptor. -/
lemma open_file_disj (f : String) (n : Nat) (env : OpenEnv) :
    (open_file_for_write f n env).fileExists = false ∨
    (open_file_for_write f n env).result = Except.ok () := by
  unfold open_file_for_write
  split_ifs <;> simp

/-- The buffered writer either succeeds — publishing a file of exactly the
header size plus the payload size — or fails having deleted any file it
created. -/
lemma write_buf_disj (data : List Nat) (t : ArrayType) (env : WriteEnv) :
    ((∃ s, (write_bytes_to_shm data t env).result = Except.ok s) ∧
      (write_bytes_to_shm data t env).content.length
        = data.length + HEADER_BYTES.length + 1 ∧
      (write_bytes_to_shm data t env).fileExists = true) ∨
    ((∃ e, (write_bytes_to_shm data t env).result = Except.error e) ∧
      (write_bytes_to_shm data t env).fileExists = false) := by
  simp only [write_bytes_to_shm]
  split
  · right
    exact ⟨⟨_, rfl⟩, rfl⟩
  · rename_i fn hcf
    split
    · rename_i e hop
      right
      refine ⟨⟨e, rfl⟩, ?_⟩
      rcases open_file_disj fn (data.length + HEADER_BYTES.length + 1) env.openEnv with
        hfe | hok
      · exact hfe
      · rw [hop] at hok
        exact absurd hok (by simp)
    · split
      · right
        exact ⟨⟨_, rfl⟩, rfl⟩
      · rename_i hlen
        left
        refine ⟨⟨_, rfl⟩, ?_, rfl⟩
        exact not_ne_iff.mp hlen

/-- The mapped write-through writer either succeeds — publishing a file of
the header size plus the payload size plus one trailing byte — or fails
having deleted any file it created. -/
lemma write_lambda_disj (fill : Nat → Nat) (N : Nat) (t : ArrayType)
    (env : MapWriteEnv) :
    ((∃ s, (write_bytes_to_shm_lambda fill N t env).result = Except.ok s) ∧
      (write_bytes_to_shm_lambda fill N t env).content.length
        = N + HEADER_BYTES.length + 2 ∧
      (write_bytes_to_shm_lambda fill N t env).fileExists = true) ∨
    ((∃ e, (write_bytes_to_shm_lambda fill N t env).result = Except.error e) ∧
      (write_bytes_to_shm_lambda fill N t env).fileExists = false) := by
  simp only [write_bytes_to_shm_lambda]
  split
  · right
    exact ⟨⟨_, rfl⟩, rfl⟩
  · rename_i fn hcf
    split
    · rename_i e hop
      right
      refine ⟨⟨e, rfl⟩, ?_⟩
      rcases open_file_disj fn (N + HEADER_BYTES.length + 1) env.openEnv with
        hfe | hok
      · exact hfe
      · rw [hop] at hok
        exact absurd hok (by simp)
    · split_ifs
      · right
        exact ⟨⟨_, rfl⟩, rfl⟩
      · right
        exact ⟨⟨_, rfl⟩, rfl⟩
      · right
        exact ⟨⟨_, rfl⟩, rfl⟩
      · right
        exact ⟨⟨_, rfl⟩, rfl⟩
      · right
        exact ⟨⟨_, rfl⟩, rfl⟩
      · left
        refine ⟨⟨_, rfl⟩, ?_, rfl⟩
        simp [HEADER_BYTES]

/-! The claims. -/

/-- C9: `create_filename` returns the concatenation
base_dir + microsecond_timestamp + "." + thread_id + "." + random_value,
base_dir being the fixed shared-memory directory "/dev/shm/", and its only
failure mode is the illegal_argument (ClockError) raised when the system
clock cannot be read. -/
theorem C9_create_filename (env : ClockEnv) :
    create_filename env
      = if env.gettimeofday_ok = true then
          Except.ok ("/dev/shm/" ++ toString (env.tv_sec * 1000000 + env.tv_usec)
            ++ "." ++ toString env.tid ++ "." ++ toString env.rand_value)
        else
          Except.error (PjrmiError.illegal_argument
            "create_filename(): Error in ::gettimeofday()") := by
  unfold create_filename
  cases h : env.gettimeofday_ok <;> simp [h]

/-- C8: release (`munmap_bytes_from_shm`) recomputes the mapping base by
subtracting the fixed 9-byte header size from the interior pointer, unmaps
the full frame length 9 + N, and deletes the backing file on both the
normal path and the munmap-failure path (failing with an IOFailure on the
latter). -/
theorem C8_release (f : String) (N : Nat) (t : ArrayType) (addr : Nat)
    (munmap_ok : Bool) :
    (munmap_bytes_from_shm f N t addr munmap_ok).fileExists = false ∧
    (munmap_bytes_from_shm f N t addr munmap_ok).region = (addr - 9, 9 + N) ∧
    (munmap_bytes_from_shm f N t addr munmap_ok).result
      = (if munmap_ok = true then Except.ok ()
         else Except.error (PjrmiError.io_error
            "munmap_bytes_from_shm(): Error in munmaping the file")) := by
  unfold munmap_bytes_from_shm
  cases munmap_ok <;> simp [HEADER_BYTES, Nat.add_comm] <;> omega

/-- C2: composing the buffered write with the copy-out read returns the
original bytes byte-for-byte, for every element type and every payload
size including zero. -/
theorem C2_round_trip (t : ArrayType) (data : List Nat) :
    (write_bytes_to_shm data t (normalWriteEnv data.length)).result
        = Except.ok "/dev/shm/0.0.0" ∧
    (read_bytes_from_shm (some "/dev/shm/0.0.0") data.length t
        (some (write_bytes_to_shm data t (normalWriteEnv data.length)).content)
        normalReadEnv).result
      = Except.ok data := by
  rw [write_normal]
  refine ⟨rfl, ?_⟩
  rw [show (⟨Except.ok "/dev/shm/0.0.0", true, frameBytes t.toChar data⟩
        : WriteResult).content = frameBytes t.toChar data from rfl]
  rw [read_frame_normal "/dev/shm/0.0.0" (by decide) t data]

/-- C6: in `open_file_for_write` the free-space check happens after the file
is created and before any payload byte is written; whenever the filesystem
reports fewer free bytes than the requested count, the file is deleted and
an OutOfSpace failure (out_of_memory) is raised, leaving no file behind.
The event trace records the ordering: creation, then the space check, then
the deletion, with no payload write. -/
theorem C6_out_of_space (f : String) (n : Nat) (env : OpenEnv)
    (hf : ¬(f = "")) (ho : env.open_ok = true) (hs : env.fstatvfs_ok = true)
    (hlt : env.f_bsize * env.f_bavail < n) :
    (open_file_for_write f n env).result
        = Except.error (PjrmiError.out_of_memory
            "open_file_for_write(): Insufficient available space in file") ∧
    (open_file_for_write f n env).fileExists = false ∧
    (open_file_for_write f n env).events
        = [FsEvent.file_created,
           FsEvent.space_checked (env.f_bsize * env.f_bavail) n,
           FsEvent.file_deleted] := by
  unfold open_file_for_write
  rw [if_neg hf, if_neg (by simp [ho]), if_neg (by simp [hs]), if_pos hlt]
  exact ⟨rfl, rfl, rfl⟩

/-- Witness for C6 at a concrete input: a 100-byte request against 12 free
bytes. -/
theorem C6_out_of_space_w :
    (open_file_for_write "/dev/shm/x" 100 ⟨true, true, 3, 4⟩).result
        = Except.error (PjrmiError.out_of_memory
            "open_file_for_write(): Insufficient available space in file") ∧
    (open_file_for_write "/dev/shm/x" 100 ⟨true, true, 3, 4⟩).fileExists = false ∧
    (open_file_for_write "/dev/shm/x" 100 ⟨true, true, 3, 4⟩).events
        = [FsEvent.file_created, FsEvent.space_checked (3 * 4) 100,
           FsEvent.file_deleted] :=
  C6_out_of_space "/dev/shm/x" 100 ⟨true, true, 3, 4⟩ (by decide) rfl rfl
    (by decide)

/-- Counterexample for C7: open-and-map called with an empty file name
raises `exception::io` (an IOFailure), not `illegal_argument`
(InvalidArgument) as the claim states. -/
theorem C7_counterexample :
    errKindOf (mmap_bytes_from_shm (some "") 5 ArrayType.TYPE_INTEGER
        (some (frameBytes ArrayType.TYPE_INTEGER.toChar [1, 2, 3, 4, 5]))
        normalReadEnv).result = some ErrKind.ioFail ∧
    errKindOf (mmap_bytes_from_shm (some "") 5 ArrayType.TYPE_INTEGER
        (some (frameBytes ArrayType.TYPE_INTEGER.toChar [1, 2, 3, 4, 5]))
        normalReadEnv).result ≠ some ErrKind.invalid := by
  exact ⟨rfl, by decide⟩

/-- C7 as amended: the write path raises InvalidArgument (illegal_argument)
when the filename reaching `open_file_for_write` is empty, while
open-and-map and the copy-out read raise IOFailure (`exception::io`) when
given an empty or NULL file name. -/
theorem C7_amended (n N : Nat) (t : ArrayType) (env : OpenEnv)
    (renv : ReadEnv) (fc : Option (List Nat)) :
    errKindOf (open_file_for_write "" n env).result = some ErrKind.invalid ∧
    errKindOf (mmap_bytes_from_shm none N t fc renv).result
      = some ErrKind.ioFail ∧
    errKindOf (mmap_bytes_from_shm (some "") N t fc renv).result
      = some ErrKind.ioFail ∧
    errKindOf (read_bytes_from_shm none N t fc renv).result
      = some ErrKind.ioFail ∧
    errKindOf (read_bytes_from_shm (some "") N t fc renv).result
      = some ErrKind.ioFail := by
  refine ⟨rfl, rfl, ?_, rfl, ?_⟩ <;>
    simp [mmap_bytes_from_shm, read_bytes_from_shm, errKindOf, PjrmiError.kind]

/-- Counterexample for C1: a successful mapped write-through write of a
zero-byte payload leaves the backing file 10 bytes long, not 9 + 0 = 9 as
the claim states (the writer seeks to offset 9 and then writes one more
zero byte, and its own size check expects 10). -/
theorem C1_counterexample :
    (write_bytes_to_shm_lambda (fun _ => 0) 0 ArrayType.TYPE_BYTE
        (normalMapEnv 0)).result = Except.ok "/dev/shm/0.0.0" ∧
    (write_bytes_to_shm_lambda (fun _ => 0) 0 ArrayType.TYPE_BYTE
        (normalMapEnv 0)).content.length = 10 := ⟨rfl, rfl⟩

/-- C1 as amended: a successful buffered write leaves the backing file
exactly 9 + N bytes long, a successful mapped write-through write leaves it
exactly 10 + N bytes long (one zero byte past the frame), and the two modes
produce an identical frame — magic, tag, payload — in the first 9 + N
bytes. -/
theorem C1_amended :
    (∀ (data : List Nat) (t : ArrayType) (env : WriteEnv) (s : String),
        (write_bytes_to_shm data t env).result = Except.ok s →
        (write_bytes_to_shm data t env).content.length
          = HEADER_BYTES.length + 1 + data.length) ∧
    (∀ (fill : Nat → Nat) (N : Nat) (t : ArrayType) (env : MapWriteEnv)
        (s : String),
        (write_bytes_to_shm_lambda fill N t env).result = Except.ok s →
        (write_bytes_to_shm_lambda fill N t env).content.length
          = HEADER_BYTES.length + 1 + N + 1) ∧
    (∀ (data : List Nat) (t : ArrayType),
        (write_bytes_to_shm data t (normalWriteEnv data.length)).content
          = ((write_bytes_to_shm_lambda (fun i => byteAt data i) data.length t
              (normalMapEnv data.length)).content).take
              (HEADER_BYTES.length + 1 + data.length)) := by
  refine ⟨?_, ?_, ?_⟩
  · intro data t env s h
    rcases write_buf_disj data t env with ⟨_, hlen, _⟩ | ⟨⟨e, herr⟩, _⟩
    · omega
    · rw [herr] at h
      exact absurd h (by simp)
  · intro fill N t env s h
    rcases write_lambda_disj fill N t env with ⟨_, hlen, _⟩ | ⟨⟨e, herr⟩, _⟩
    · omega
    · rw [herr] at h
      exact absurd h (by simp)
  · intro data t
    rw [write_normal data t,
        write_lambda_normal (fun i => byteAt data i) data.length t]
    show frameBytes t.toChar data
        = (HEADER_BYTES ++ [t.toChar]
            ++ (List.range data.length).map (fun i => byteAt data i)
            ++ [0]).take (HEADER_BYTES.length + 1 + data.length)
    rw [List.take_left' (by simp [HEADER_BYTES]; omega)]
    simp [frameBytes, byteAt, range_map_getD]

/-- Witness for C1 as amended: a one-byte payload gives a 10-byte file in
buffered mode and an 11-byte file in mapped mode. -/
theorem C1_amended_w :
    (write_bytes_to_shm [7] ArrayType.TYPE_BYTE (normalWriteEnv 1)).content.length
        = HEADER_BYTES.length + 1 + 1 ∧
    (write_bytes_to_shm_lambda (fun _ => 7) 1 ArrayType.TYPE_BYTE
        (normalMapEnv 1)).content.length = HEADER_BYTES.length + 1 + 1 + 1 :=
  ⟨C1_amended.1 [7] ArrayType.TYPE_BYTE (normalWriteEnv 1) "/dev/shm/0.0.0"
     (by rw [show normalWriteEnv 1 = normalWriteEnv ([7] : List Nat).length from rfl,
             write_normal]),
   C1_amended.2.1 (fun _ => 7) 1 ArrayType.TYPE_BYTE (normalMapEnv 1)
     "/dev/shm/0.0.0"
     (by rw [write_lambda_normal (fun _ => 7) 1 ArrayType.TYPE_BYTE])⟩

/-- C5: open-and-map rejects with IOFailure — before creating any mapping —
every backing file smaller than 9 bytes (the 8 magic bytes plus the 1 tag
byte), while a valid zero-length-payload frame of exactly 9 bytes is still
accepted and round-trips through write and copy-out read. -/
theorem C5_small_reject_zero_ok (f : String) (c : List Nat) (N : Nat)
    (t u : ArrayType) (env : ReadEnv) (hf : ¬(f = ""))
    (hc : c.length < HEADER_BYTES.length + 1) :
    errKindOf (mmap_bytes_from_shm (some f) N t (some c) env).result
        = some ErrKind.ioFail ∧
    (mmap_bytes_from_shm (some f) N t (some c) env).mappedRegion = none ∧
    (write_bytes_to_shm [] u (normalWriteEnv 0)).content.length
        = HEADER_BYTES.length + 1 ∧
    (read_bytes_from_shm (some "/dev/shm/0.0.0") 0 u
        (some (write_bytes_to_shm [] u (normalWriteEnv 0)).content)
        normalReadEnv).result = Except.ok [] := by
  have hw := write_normal [] u
  simp only [List.length_nil] at hw
  refine ⟨?_, ?_, ?_, ?_⟩
  · simp only [mmap_bytes_from_shm]
    rw [if_neg hf, if_pos hc]
    rfl
  · simp only [mmap_bytes_from_shm]
    rw [if_neg hf, if_pos hc]
  · rw [hw]
    simp [frameBytes, HEADER_BYTES]
  · rw [hw]
    rw [show (⟨Except.ok "/dev/shm/0.0.0", true, frameBytes u.toChar []⟩
          : WriteResult).content = frameBytes u.toChar [] from rfl]
    have hr := read_frame_normal "/dev/shm/0.0.0" (by decide) u []
    simp only [List.length_nil] at hr
    rw [hr]

/-- Witness for C5: a 2-byte file is rejected with its mapping never
created, and the 9-byte boolean frame round-trips. -/
theorem C5_small_reject_zero_ok_w :
    errKindOf (mmap_bytes_from_shm (some "/dev/shm/f") 5 ArrayType.TYPE_INTEGER
        (some [0, 0]) normalReadEnv).result = some ErrKind.ioFail ∧
    (mmap_bytes_from_shm (some "/dev/shm/f") 5 ArrayType.TYPE_INTEGER
        (some [0, 0]) normalReadEnv).mappedRegion = none ∧
    (write_bytes_to_shm [] ArrayType.TYPE_BOOLEAN (normalWriteEnv 0)).content.length
        = HEADER_BYTES.length + 1 ∧
    (read_bytes_from_shm (some "/dev/shm/0.0.0") 0 ArrayType.TYPE_BOOLEAN
        (some (write_bytes_to_shm [] ArrayType.TYPE_BOOLEAN
          (normalWriteEnv 0)).content)
        normalReadEnv).result = Except.ok [] :=
  C5_small_reject_zero_ok "/dev/shm/f" [0, 0] 5 ArrayType.TYPE_INTEGER
    ArrayType.TYPE_BOOLEAN normalReadEnv (by decide) (by decide)

/-- Inversion of a successful open-and-map: the returned pointer is the
mapping base plus the 9-byte header offset, the full result is the success
record, and the magic comparison and tag comparison had both succeeded. -/
lemma mmap_ok_inv (f : String) (c : List Nat) (N : Nat) (t : ArrayType)
    (env : ReadEnv) (p : Nat)
    (h : (mmap_bytes_from_shm (some f) N t (some c) env).result = Except.ok p) :
    p = env.mmap_base + HEADER_BYTES.length + 1 ∧
    (mmap_bytes_from_shm (some f) N t (some c) env)
      = ⟨Except.ok (env.mmap_base + HEADER_BYTES.length + 1), true,
          some (env.mmap_base, N + HEADER_BYTES.length + 1), false⟩ ∧
    strncmpFrom c HEADER_BYTES 0 HEADER_BYTES.length = 0 ∧
    byteAt c HEADER_BYTES.length = t.toChar := by
  revert h
  simp only [mmap_bytes_from_shm]
  split_ifs with h1 h2 h3 h4 h5 <;> intro h
  · simp at h
  · simp at h
  · simp at h
  · simp at h
  · simp at h
  · simp only [Except.ok.injEq] at h
    exact ⟨h.symm, rfl, not_ne_iff.mp h4, not_ne_iff.mp h5⟩

/-- C3: opening a frame written with element type T while expecting a
different type always fails with an IOFailure, deletes the backing file,
and never returns a pointer; and whenever open-and-map does return a
pointer, the magic bytes and the type tag of the file had both been
verified. -/
theorem C3_type_discrimination (t t2 : ArrayType) (data : List Nat)
    (f : String) (env : ReadEnv) (ht : ¬(t = t2)) (hf : ¬(f = "")) :
    (errKindOf (mmap_bytes_from_shm (some f) data.length t2
        (some (frameBytes t.toChar data)) env).result = some ErrKind.ioFail ∧
     (mmap_bytes_from_shm (some f) data.length t2
        (some (frameBytes t.toChar data)) env).fileExists = false ∧
     ∀ p, (mmap_bytes_from_shm (some f) data.length t2
        (some (frameBytes t.toChar data)) env).result ≠ Except.ok p) ∧
    (∀ (c : List Nat) (N : Nat) (t3 : ArrayType) (p : Nat),
      (mmap_bytes_from_shm (some f) N t3 (some c) env).result = Except.ok p →
      (∀ i, i < HEADER_BYTES.length → byteAt c i = byteAt HEADER_BYTES i) ∧
      byteAt c HEADER_BYTES.length = t3.toChar) := by
  constructor
  · cases hm : env.mmap_ok with
    | false =>
      simp only [mmap_bytes_from_shm, hm]
      rw [if_neg hf, if_neg (by rw [frameBytes_length]; omega),
          if_pos trivial]
      exact ⟨rfl, rfl, by simp⟩
    | true =>
      simp only [mmap_bytes_from_shm, hm]
      rw [if_neg hf, if_neg (by rw [frameBytes_length]; omega),
          if_neg (by simp), if_neg (by simp [strncmp_frameBytes]),
          if_pos (by rw [byteAt_frame_tag]; exact toChar_injective t t2 ht)]
      exact ⟨rfl, rfl, by simp⟩
  · intro c N t3 p hp
    have hinv := mmap_ok_inv f c N t3 env p hp
    exact ⟨strncmp_zero_extract c hinv.2.2.1, hinv.2.2.2⟩

/-- Witness for C3: a byte-typed frame opened expecting a 32-bit integer is
rejected with an IOFailure and the file deleted. -/
theorem C3_type_discrimination_w :
    errKindOf (mmap_bytes_from_shm (some "/dev/shm/0.0.0") 3 ArrayType.TYPE_INTEGER
        (some (frameBytes ArrayType.TYPE_BYTE.toChar [1, 2, 3]))
        normalReadEnv).result = some ErrKind.ioFail ∧
    (mmap_bytes_from_shm (some "/dev/shm/0.0.0") 3 ArrayType.TYPE_INTEGER
        (some (frameBytes ArrayType.TYPE_BYTE.toChar [1, 2, 3]))
        normalReadEnv).fileExists = false :=
  let h := C3_type_discrimination ArrayType.TYPE_BYTE ArrayType.TYPE_INTEGER
    [1, 2, 3] "/dev/shm/0.0.0" normalReadEnv (by decide) (by decide)
  ⟨h.1.1, h.1.2.1⟩

/-- C10: the interior-pointer convention of the reader and the releaser
agree: a pointer returned by open-and-map is the mapping base plus the
9-byte header offset, the mapped region is the full frame length 9 + N, and
release applied to that pointer with the same size recovers exactly that
region. -/
theorem C10_pointer_convention (f : String) (c : List Nat) (N : Nat)
    (t : ArrayType) (env : ReadEnv) (munmap_ok : Bool) (p : Nat)
    (h : (mmap_bytes_from_shm (some f) N t (some c) env).result = Except.ok p) :
    p = env.mmap_base + HEADER_BYTES.length + 1 ∧
    (mmap_bytes_from_shm (some f) N t (some c) env).mappedRegion
      = some (env.mmap_base, N + HEADER_BYTES.length + 1) ∧
    (munmap_bytes_from_shm f N t p munmap_ok).region
      = (env.mmap_base, N + HEADER_BYTES.length + 1) := by
  have hinv := mmap_ok_inv f c N t env p h
  refine ⟨hinv.1, by rw [hinv.2.1], ?_⟩
  rw [hinv.1]
  unfold munmap_bytes_from_shm
  cases munmap_ok <;> simp

/-- Witness for C10 on a one-byte boolean frame mapped at 4096. -/
theorem C10_pointer_convention_w :
    (4096 + HEADER_BYTES.length + 1 : Nat) = 4096 + HEADER_BYTES.length + 1 ∧
    (mmap_bytes_from_shm (some "/dev/shm/0.0.0") 1 ArrayType.TYPE_BOOLEAN
        (some (frameBytes ArrayType.TYPE_BOOLEAN.toChar [1]))
        normalReadEnv).mappedRegion
      = some (4096, 1 + HEADER_BYTES.length + 1) ∧
    (munmap_bytes_from_shm "/dev/shm/0.0.0" 1 ArrayType.TYPE_BOOLEAN
        (4096 + HEADER_BYTES.length + 1) true).region
      = (4096, 1 + HEADER_BYTES.length + 1) :=
  C10_pointer_convention "/dev/shm/0.0.0"
    (frameBytes ArrayType.TYPE_BOOLEAN.toChar [1]) 1 ArrayType.TYPE_BOOLEAN
    normalReadEnv true (4096 + HEADER_BYTES.length + 1)
    (by rw [mmap_frame_ok "/dev/shm/0.0.0" (by decide) 1 ArrayType.TYPE_BOOLEAN
              [1] normalReadEnv rfl]
        rfl)

/-- Counterexample for C4: the reader rejecting a 2-byte (too-small) file
raises an IOFailure but leaves the backing file in place — it only closes
the descriptor and never calls unlink on that path — contradicting the
claim that every IOFailure path of open-and-map deletes the file. -/
theorem C4_counterexample :
    errKindOf (mmap_bytes_from_shm (some "/dev/shm/f") 5 ArrayType.TYPE_INTEGER
        (some [0, 0]) normalReadEnv).result = some ErrKind.ioFail ∧
    (mmap_bytes_from_shm (some "/dev/shm/f") 5 ArrayType.TYPE_INTEGER
        (some [0, 0]) normalReadEnv).fileExists = true := ⟨rfl, rfl⟩

/-- C4 as amended: the writers delete the created file on every failure
path; open-and-map deletes the file on mmap failure and on magic or type
mismatch, and the copy-out read deletes it on allocation failure — but the
file-too-small rejection leaves the backing file in place (no mapping
having been created), and the magic/type-mismatch and allocation-failure
paths raise without unmapping the active mapping. -/
theorem C4_amended :
    (∀ (f : String) (c : List Nat) (N : Nat) (t : ArrayType) (env : ReadEnv),
        ¬(f = "") → c.length < HEADER_BYTES.length + 1 →
        errKindOf (mmap_bytes_from_shm (some f) N t (some c) env).result
            = some ErrKind.ioFail ∧
        (mmap_bytes_from_shm (some f) N t (some c) env).fileExists = true ∧
        (mmap_bytes_from_shm (some f) N t (some c) env).mappedRegion = none) ∧
    (∀ (f : String) (c : List Nat) (N : Nat) (t : ArrayType) (env : ReadEnv),
        ¬(f = "") → HEADER_BYTES.length + 1 ≤ c.length → env.mmap_ok = true →
        strncmpFrom c HEADER_BYTES 0 HEADER_BYTES.length ≠ 0 →
        errKindOf (mmap_bytes_from_shm (some f) N t (some c) env).result
            = some ErrKind.ioFail ∧
        (mmap_bytes_from_shm (some f) N t (some c) env).fileExists = false ∧
        (mmap_bytes_from_shm (some f) N t (some c) env).mappedRegion
            = some (env.mmap_base, N + HEADER_BYTES.length + 1) ∧
        (mmap_bytes_from_shm (some f) N t (some c) env).unmapped = false) ∧
    (∀ (f : String) (t : ArrayType) (data : List Nat) (env : ReadEnv),
        ¬(f = "") → env.mmap_ok = true → env.malloc_ok = false →
        errKindOf (read_bytes_from_shm (some f) data.length t
            (some (frameBytes t.toChar data)) env).result = some ErrKind.ioFail ∧
        (read_bytes_from_shm (some f) data.length t
            (some (frameBytes t.toChar data)) env).fileExists = false ∧
        (read_bytes_from_shm (some f) data.length t
            (some (frameBytes t.toChar data)) env).mappedRegion
            = some (env.mmap_base, data.length + HEADER_BYTES.length + 1) ∧
        (read_bytes_from_shm (some f) data.length t
            (some (frameBytes t.toChar data)) env).unmapped = false) ∧
    (∀ (data : List Nat) (t : ArrayType) (env : WriteEnv) (e : PjrmiError),
        (write_bytes_to_shm data t env).result = Except.error e →
        (write_bytes_to_shm data t env).fileExists = false) ∧
    (∀ (fill : Nat → Nat) (N : Nat) (t : ArrayType) (env : MapWriteEnv)
        (e : PjrmiError),
        (write_bytes_to_shm_lambda fill N t env).result = Except.error e →
        (write_bytes_to_shm_lambda fill N t env).fileExists = false) := by
  refine ⟨?_, ?_, ?_, ?_, ?_⟩
  · intro f c N t env hf hc
    simp only [mmap_bytes_from_shm]
    rw [if_neg hf, if_pos hc]
    exact ⟨rfl, rfl, rfl⟩
  · intro f c N t env hf hc hm hs
    simp only [mmap_bytes_from_shm, hm]
    rw [if_neg hf, if_neg (by omega), if_neg (by simp), if_pos hs]
    exact ⟨rfl, rfl, rfl, rfl⟩
  · intro f t data env hf hm hmal
    simp only [read_bytes_from_shm]
    rw [mmap_frame_ok f hf data.length t data env hm]
    simp [hmal, errKindOf, PjrmiError.kind]
  · intro data t env e h
    rcases write_buf_disj data t env with ⟨⟨s, hok⟩, _, _⟩ | ⟨_, hfe⟩
    · rw [h] at hok
      exact absurd hok (by simp)
    · exact hfe
  · intro fill N t env e h
    rcases write_lambda_disj fill N t env with ⟨⟨s, hok⟩, _, _⟩ | ⟨_, hfe⟩
    · rw [h] at hok
      exact absurd hok (by simp)
    · exact hfe

/-- Witness for C4 as amended: the too-small rejection keeps the file; the
allocation-failure path deletes the file but leaves the mapping; a writer
failure (clock error) leaves no file. -/
theorem C4_amended_w :
    ((mmap_bytes_from_shm (some "/dev/shm/f") 5 ArrayType.TYPE_INTEGER
        (some [0, 0]) normalReadEnv).fileExists = true ∧
     (mmap_bytes_from_shm (some "/dev/shm/f") 5 ArrayType.TYPE_INTEGER
        (some [0, 0]) normalReadEnv).mappedRegion = none) ∧
    ((read_bytes_from_shm (some "/dev/shm/0.0.0") 3 ArrayType.TYPE_BYTE
        (some (frameBytes ArrayType.TYPE_BYTE.toChar [1, 2, 3]))
        ⟨true, 4096, false, true⟩).fileExists = false ∧
     (read_bytes_from_shm (some "/dev/shm/0.0.0") 3 ArrayType.TYPE_BYTE
        (some (frameBytes ArrayType.TYPE_BYTE.toChar [1, 2, 3]))
        ⟨true, 4096, false, true⟩).unmapped = false) ∧
    (write_bytes_to_shm [1] ArrayType.TYPE_BYTE
        ⟨⟨false, 0, 0, 0, 0⟩, normalOpen 0, []⟩).fileExists = false :=
  ⟨⟨(C4_amended.1 "/dev/shm/f" [0, 0] 5 ArrayType.TYPE_INTEGER normalReadEnv
      (by decide) (by decide)).2.1,
    (C4_amended.1 "/dev/shm/f" [0, 0] 5 ArrayType.TYPE_INTEGER normalReadEnv
      (by decide) (by decide)).2.2⟩,
   ⟨(C4_amended.2.2.1 "/dev/shm/0.0.0" ArrayType.TYPE_BYTE [1, 2, 3]
      ⟨true, 4096, false, true⟩ (by decide) rfl rfl).2.1,
    (C4_amended.2.2.1 "/dev/shm/0.0.0" ArrayType.TYPE_BYTE [1, 2, 3]
      ⟨true, 4096, false, true⟩ (by decide) rfl rfl).2.2.2⟩,
   C4_amended.2.2.2.1 [1] ArrayType.TYPE_BYTE
     ⟨⟨false, 0, 0, 0, 0⟩, normalOpen 0, []⟩
     (PjrmiError.illegal_argument "create_filename(): Error in ::gettimeofday()")
     rfl⟩

end Pjrmi
